import Mathlib

/-!
Shallow embedding of the `py_moodle` permission and site-info modules
(`src/py_moodle/permissions.py`, `src/py_moodle/site.py`) and of the
cleanup phase of `example_script_with_progressbar.py`, together with
theorems settling the specification claims about them.

HTTP traffic is modelled by an environment function mapping a URL to the
response the server would give; a Python `requests.Session` object is a
record carrying an object identity and the dynamically attached
`_moodle_role` attribute.  Functions that issue requests additionally
return the list of URLs they fetched, so that claims about the number of
HTTP round trips are expressible.
-/

/-- Substring test used to model Python's `needle in haystack` on lists of
characters: `listPre n h` is true when `n` is an initial segment of `h`. -/
def listPre : List Char → List Char → Bool
  | [], _ => true
  | _ :: _, [] => false
  | a :: as, b :: bs => a == b && listPre as bs

/-- Containment of `n` as a contiguous segment of `h` (Python `in`). -/
def listSub : List Char → List Char → Bool
  | n, [] => n.isEmpty
  | n, b :: bs => listPre n (b :: bs) || listSub n bs

/-- Model of Python's `needle in haystack` on strings. -/
def strContains (haystack needle : String) : Bool :=
  listSub needle.data haystack.data

/-- An HTTP response: status code and body text. -/
structure HttpResponse where
  status : Nat
  text : String

/-- The remote Moodle instance, as the map from URL to response. -/
def Env : Type := String → HttpResponse

/-- Model of a `requests.Session` object: `sid` is the object identity
(Python `is` / default `==`), `moodle_role` the dynamically attached
`_moodle_role` attribute (`none` when the attribute is absent). -/
structure Session where
  sid : Nat
  moodle_role : Option String

/-- Python truthiness of the cached attribute value read with
`getattr(session, "_moodle_role", None)`: `None` and `""` are falsy. -/
def truthy : Option String → Bool
  | none => false
  | some s => !(s == "")

/-- `requests.Response.raise_for_status` raises for status codes in
[400, 600). -/
def httpErrB (status : Nat) : Bool :=
  decide (400 ≤ status) && decide (status < 600)

/-- The marker substring that identifies the site-administration node on
the dashboard page, from `permissions.get_user_role`. -/
def adminMarker : String := "data-key=\"siteadminnode\""

/-- The probe part of `permissions.get_user_role` (the code below the
cache check): fetch the dashboard, on the admin marker return `admin`
after one GET, otherwise probe the course-management page and return
`manager` on HTTP 200, else `user`; cache the role on the session.
Returns the role, the updated session and the list of URLs fetched. -/
def fetchRole (env : Env) (s : Session) (base_url : String) :
    Except String (String × Session × List String) :=
  let dash := env (base_url ++ "/my/")
  if httpErrB dash.status then Except.error "HTTPError"
  else if strContains dash.text adminMarker then
    Except.ok ("admin", { s with moodle_role := some "admin" }, [base_url ++ "/my/"])
  else
    let m := env (base_url ++ "/course/management.php")
    let role := if m.status == 200 then "manager" else "user"
    Except.ok (role, { s with moodle_role := some role },
      [base_url ++ "/my/", base_url ++ "/course/management.php"])

/-- `permissions.get_user_role`: return the truthy cached role without
any HTTP traffic, otherwise run the probes. -/
def get_user_role (env : Env) (s : Session) (base_url : String) :
    Except String (String × Session × List String) :=
  if truthy s.moodle_role then Except.ok (s.moodle_role.getD "", s, [])
  else fetchRole env s base_url

/-- `permissions.ROLE_HIERARCHY`. -/
def ROLE_HIERARCHY : List (String × Nat) := [("user", 0), ("manager", 1), ("admin", 2)]

/-- A Python value that can appear among the positional arguments of a
decorated function: a session object, a string, or some other value. -/
inductive PyVal where
  | vsess (s : Session)
  | vstr (v : String)
  | vint (v : Int)

/-- Python `f"{v}"` conversion of an argument used as a base URL. -/
def pyStr : PyVal → String
  | .vsess s => "<Session " ++ toString s.sid ++ ">"
  | .vstr v => v
  | .vint v => toString v

/-- The keyword arguments the decorator inspects: `kwargs.get("session")`
and `kwargs.get("base_url")`. -/
structure Kwargs where
  session : Option Session := none
  base_url : Option PyVal := none

/-- The `for arg in args: if isinstance(arg, requests.Session)` scan. -/
def findSessionArg : List PyVal → Option Session
  | [] => none
  | .vsess s :: _ => some s
  | _ :: rest => findSessionArg rest

/-- `list(args).index(session)`: index of the first positional argument
equal (by object identity) to the session, `none` for `ValueError`. -/
def indexOfSess (args : List PyVal) (s : Session) : Option Nat :=
  match args with
  | [] => none
  | .vsess t :: rest =>
    if t.sid == s.sid then some 0 else (indexOfSess rest s).map (· + 1)
  | _ :: rest => (indexOfSess rest s).map (· + 1)

/-- The argument-locating logic of the `requires_role` wrapper: keyword
arguments first, then the positional session scan, then, when the base
URL is still missing and a session was found, the argument immediately
following the session in the positional list. -/
def locate (args : List PyVal) (kw : Kwargs) : Option Session × Option PyVal :=
  let session :=
    match kw.session with
    | some s => some s
    | none => findSessionArg args
  let base_url :=
    match kw.base_url with
    | some b => some b
    | none =>
      match session with
      | none => none
      | some s =>
        match indexOfSess args s with
        | some idx => if idx + 1 < args.length then args.get? (idx + 1) else none
        | none => none
  (session, base_url)

/-- Outcome of a call to a `requires_role`-wrapped function. -/
inductive CallResult (α : Type) where
  | ok (a : α)
  | roleError (msg : String)
  | httpError (msg : String)
  | keyError (k : String)
deriving DecidableEq

/-- Message of the configuration `RoleError` raised when the session or
base URL cannot be located. -/
def configErrorMsg : String :=
  "Session and base_url are required for role verification."

/-- Message of the insufficient-permission `RoleError`. -/
def permErrorMsg (required current : String) : String :=
  "Operation requires role '" ++ required ++ "', current role is '" ++ current ++ "'."

/-- The `wrapper` closure produced by `permissions.requires_role`:
locate session and base URL, raise the configuration `RoleError` when
either is missing, look up the caller's role, compare hierarchy ranks,
and either raise the insufficient-permission `RoleError` or call through
to the wrapped function with the original arguments. -/
def wrapper {α : Type} (required : String) (func : List PyVal → Kwargs → α)
    (env : Env) (args : List PyVal) (kw : Kwargs) : CallResult α :=
  match locate args kw with
  | (some s, some b) =>
    match get_user_role env s (pyStr b) with
    | Except.error e => CallResult.httpError e
    | Except.ok (role, _, _) =>
      match ROLE_HIERARCHY.lookup role, ROLE_HIERARCHY.lookup required with
      | some cr, some rr =>
        if cr < rr then CallResult.roleError (permErrorMsg required role)
        else CallResult.ok (func args kw)
      | none, _ => CallResult.keyError role
      | some _, none => CallResult.keyError required
  | _ => CallResult.roleError configErrorMsg

/-- Python's binding of `*args, **kwargs` onto a function declared as
`def f(session, base_url)`: the shapes that bind successfully, `none`
for a `TypeError`. -/
def bind2 {α : Type} (f : PyVal → PyVal → α) (args : List PyVal) (kw : Kwargs) :
    Option α :=
  match args, kw.session, kw.base_url with
  | [a, b], none, none => some (f a b)
  | [a], none, some b => some (f a b)
  | [], some s, some b => some (f (.vsess s) b)
  | _, _, _ => none

/-- A JSON value of the shapes the site-info endpoint returns: strings,
integers, booleans, and arrays of objects. -/
inductive JVal where
  | s (v : String)
  | i (v : Int)
  | b (v : Bool)
  | arr (v : List (List (String × JVal)))

/-- A JSON object: an association list from keys to values. -/
abbrev JObj : Type := List (String × JVal)

/-- Model of a `dataclass` field value: a `SiteFunction` carries whatever
the response supplied for `name` and `version`. -/
structure SiteFunction where
  name : JVal
  version : JVal

/-- An `AdvancedFeature` carries the response's `name` and `value`. -/
structure AdvancedFeature where
  name : JVal
  value : JVal

/-- `site.SiteInfo`: one field per dataclass field, in declaration
order; the two list fields hold the converted records. -/
structure SiteInfo where
  sitename : JVal
  username : JVal
  firstname : JVal
  lastname : JVal
  fullname : JVal
  lang : JVal
  userid : JVal
  siteurl : JVal
  userpictureurl : JVal
  functions : List SiteFunction
  downloadfiles : JVal
  uploadfiles : JVal
  release : JVal
  version : JVal
  mobilecssurl : JVal
  advancedfeatures : List AdvancedFeature
  usercanmanageownfiles : JVal
  userquota : JVal
  usermaxuploadfilesize : JVal
  userhomepage : JVal
  userprivateaccesskey : JVal
  siteid : JVal
  sitecalendartype : JVal
  usercalendartype : JVal
  userissiteadmin : JVal
  theme : JVal
  limitconcurrentlogins : JVal
  policyagreed : JVal

/-- The declared field names of `SiteInfo`, in declaration order. -/
def siteInfoFields : List String :=
  ["sitename", "username", "firstname", "lastname", "fullname", "lang",
   "userid", "siteurl", "userpictureurl", "functions", "downloadfiles",
   "uploadfiles", "release", "version", "mobilecssurl", "advancedfeatures",
   "usercanmanageownfiles", "userquota", "usermaxuploadfilesize",
   "userhomepage", "userprivateaccesskey", "siteid", "sitecalendartype",
   "usercalendartype", "userissiteadmin", "theme", "limitconcurrentlogins",
   "policyagreed"]

/-- The scalar (non-list) field names of `SiteInfo`. -/
def scalarFields : List String :=
  ["sitename", "username", "firstname", "lastname", "fullname", "lang",
   "userid", "siteurl", "userpictureurl", "downloadfiles",
   "uploadfiles", "release", "version", "mobilecssurl",
   "usercanmanageownfiles", "userquota", "usermaxuploadfilesize",
   "userhomepage", "userprivateaccesskey", "siteid", "sitecalendartype",
   "usercalendartype", "userissiteadmin", "theme", "limitconcurrentlogins",
   "policyagreed"]

/-- `SiteFunction(**m)`: keyword construction of the dataclass is strict,
succeeding exactly when the keys of `m` are the declared fields. -/
def mkSiteFunction (m : JObj) : Option SiteFunction :=
  if (List.lookup "name" m).isSome && (List.lookup "version" m).isSome
      && m.all (fun kv => kv.1 == "name" || kv.1 == "version") then
    some ⟨(List.lookup "name" m).getD (.i 0), (List.lookup "version" m).getD (.i 0)⟩
  else none

/-- `AdvancedFeature(**m)`: strict keyword construction. -/
def mkAdvancedFeature (m : JObj) : Option AdvancedFeature :=
  if (List.lookup "name" m).isSome && (List.lookup "value" m).isSome
      && m.all (fun kv => kv.1 == "name" || kv.1 == "value") then
    some ⟨(List.lookup "name" m).getD (.i 0), (List.lookup "value" m).getD (.i 0)⟩
  else none

/-- The list comprehension `[C(**x) for x in l]`: convert left to right,
failing as soon as one element fails. -/
def convList {α : Type} (g : JObj → Option α) : List JObj → Option (List α)
  | [] => some []
  | m :: rest =>
    match g m, convList g rest with
    | some a, some l => some (a :: l)
    | _, _ => none

/-- Field value helper for `SiteInfo(**response)`. -/
def fieldOf (resp : JObj) (k : String) : JVal :=
  (List.lookup k resp).getD (.i 0)

/-- `SiteInfo(**response)` where `response` has had its `functions` and
`advancedfeatures` entries replaced by the converted lists `funcs` and
`feats`: strict keyword construction, succeeding exactly when every
declared field is a key of the response and every key is declared. -/
def mkSiteInfo (resp : JObj) (funcs : List SiteFunction)
    (feats : List AdvancedFeature) : Option SiteInfo :=
  if siteInfoFields.all (fun p => (List.lookup p resp).isSome)
      && resp.all (fun kv => siteInfoFields.contains kv.1) then
    some
      { sitename := fieldOf resp "sitename"
        username := fieldOf resp "username"
        firstname := fieldOf resp "firstname"
        lastname := fieldOf resp "lastname"
        fullname := fieldOf resp "fullname"
        lang := fieldOf resp "lang"
        userid := fieldOf resp "userid"
        siteurl := fieldOf resp "siteurl"
        userpictureurl := fieldOf resp "userpictureurl"
        functions := funcs
        downloadfiles := fieldOf resp "downloadfiles"
        uploadfiles := fieldOf resp "uploadfiles"
        release := fieldOf resp "release"
        version := fieldOf resp "version"
        mobilecssurl := fieldOf resp "mobilecssurl"
        advancedfeatures := feats
        usercanmanageownfiles := fieldOf resp "usercanmanageownfiles"
        userquota := fieldOf resp "userquota"
        usermaxuploadfilesize := fieldOf resp "usermaxuploadfilesize"
        userhomepage := fieldOf resp "userhomepage"
        userprivateaccesskey := fieldOf resp "userprivateaccesskey"
        siteid := fieldOf resp "siteid"
        sitecalendartype := fieldOf resp "sitecalendartype"
        usercalendartype := fieldOf resp "usercalendartype"
        userissiteadmin := fieldOf resp "userissiteadmin"
        theme := fieldOf resp "theme"
        limitconcurrentlogins := fieldOf resp "limitconcurrentlogins"
        policyagreed := fieldOf resp "policyagreed" }
  else none

/-- Python iteration over the value of a key: only an array of objects
iterates into dataclass constructions; any other shape raises. -/
def asArr : JVal → Option (List JObj)
  | .arr l => some l
  | _ => none

/-- The body of `site.get_site_info` applied to the decoded response of
the one `core_webservice_get_site_info` call: read and convert the
`functions` list (a missing key raises `KeyError`, a non-array value or a
non-conforming element raises `TypeError`), then the `advancedfeatures`
list, then build the `SiteInfo` record strictly. -/
def processResp (resp : JObj) : Option SiteInfo :=
  (List.lookup "functions" resp).bind fun fv =>
    (asArr fv).bind fun fl =>
      (convList mkSiteFunction fl).bind fun funcs =>
        (List.lookup "advancedfeatures" resp).bind fun av =>
          (asArr av).bind fun al =>
            (convList mkAdvancedFeature al).bind fun feats =>
              mkSiteInfo resp funcs feats

/-- A `MoodleSession` as `get_site_info` uses it: the stream of responses
its web-service `call` method will produce, in order; each call consumes
one response. -/
structure MoodleSession where
  responses : List JObj

/-- `site.get_site_info`: one `session.call("core_webservice_get_site_info")`,
then the strict reshaping of the response. -/
def get_site_info (s : MoodleSession) : Option (SiteInfo × MoodleSession) :=
  match s.responses with
  | [] => none
  | r :: rest =>
    match processResp r with
    | some si => some (si, ⟨rest⟩)
    | none => none

/-- Access a scalar `SiteInfo` field by its Python field name. -/
def SiteInfo.scalar (si : SiteInfo) : String → Option JVal
  | "sitename" => some si.sitename
  | "username" => some si.username
  | "firstname" => some si.firstname
  | "lastname" => some si.lastname
  | "fullname" => some si.fullname
  | "lang" => some si.lang
  | "userid" => some si.userid
  | "siteurl" => some si.siteurl
  | "userpictureurl" => some si.userpictureurl
  | "downloadfiles" => some si.downloadfiles
  | "uploadfiles" => some si.uploadfiles
  | "release" => some si.release
  | "version" => some si.version
  | "mobilecssurl" => some si.mobilecssurl
  | "usercanmanageownfiles" => some si.usercanmanageownfiles
  | "userquota" => some si.userquota
  | "usermaxuploadfilesize" => some si.usermaxuploadfilesize
  | "userhomepage" => some si.userhomepage
  | "userprivateaccesskey" => some si.userprivateaccesskey
  | "siteid" => some si.siteid
  | "sitecalendartype" => some si.sitecalendartype
  | "usercalendartype" => some si.usercalendartype
  | "userissiteadmin" => some si.userissiteadmin
  | "theme" => some si.theme
  | "limitconcurrentlogins" => some si.limitconcurrentlogins
  | "policyagreed" => some si.policyagreed
  | _ => none

/-- The per-course body of the cleanup loop in the `finally` block of
`example_script_with_progressbar.main`: `delete_course` inside a
`try`/`except Exception` that only logs, so every iteration completes
and the loop continues; the result records, in order, each attempted
course ID and whether its deletion succeeded. -/
def cleanupLoop (del : Nat → Except String Unit) : List Nat → List (Nat × Bool)
  | [] => []
  | i :: rest =>
    (match del i with
     | Except.ok _ => (i, true)
     | Except.error _ => (i, false)) :: cleanupLoop del rest

/-- The `try`/`except`/`finally` tail of `main`: the `except` clause only
logs `mainError`, and the `finally` block runs the cleanup loop over the
recorded `created` course IDs whenever that list is non-empty. -/
def mainCleanup (created : List Nat) (mainError : Option String)
    (del : Nat → Except String Unit) : List (Nat × Bool) :=
  if created.isEmpty then [] else cleanupLoop del created

/-- Helper: the cleanup loop attempts every course ID, in order,
whatever the deletion oracle does. -/
theorem cleanupLoop_attempts_all (del : Nat → Except String Unit) :
    ∀ ids : List Nat, (cleanupLoop del ids).map Prod.fst = ids := by
  intro ids
  induction ids with
  | nil => rfl
  | cons i rest ih =>
    unfold cleanupLoop
    cases del i with
    | ok _ => simpa using ih
    | error _ => simpa using ih

/-- C8: in the example automation script, the cleanup phase attempts a
`delete_course` call for every recorded course ID in order, a deletion
error never prevents the attempts on the later IDs (the attempted-ID
list does not depend on the deletion oracle's failures), and the cleanup
runs identically whether or not the main phase raised. -/
theorem mainCleanup_best_effort (created : List Nat) (mainError : Option String)
    (del : Nat → Except String Unit) :
    (mainCleanup created mainError del).map Prod.fst = created ∧
    mainCleanup created mainError del = mainCleanup created none del ∧
    (∀ i ∈ created, ∃ b, (i, b) ∈ mainCleanup created mainError del) := by
  refine ⟨?_, rfl, ?_⟩
  · unfold mainCleanup
    by_cases h : created.isEmpty
    · simp [h, List.isEmpty_iff.mp h]
    · simp [h, cleanupLoop_attempts_all]
  · intro i hi
    have hmap : (mainCleanup created mainError del).map Prod.fst = created := by
      unfold mainCleanup
      by_cases h : created.isEmpty
      · simp [h, List.isEmpty_iff.mp h]
      · simp [h, cleanupLoop_attempts_all]
    rw [← hmap] at hi
    rcases List.mem_map.mp hi with ⟨⟨i', b⟩, hmem, hfst⟩
    exact ⟨b, by simpa [← hfst] using hmem⟩

/-- C3: once `get_user_role` has completed on a session, every later
call with the resulting session object issues no HTTP requests (the
fetched-URL list is empty), returns the cached role unchanged, and
leaves the session as it is — whatever environment or base URL the
second call uses. -/
theorem get_user_role_memoized (env env' : Env) (s s' : Session)
    (u u' r : String) (gets : List String)
    (h : get_user_role env s u = Except.ok (r, s', gets)) :
    get_user_role env' s' u' = Except.ok (r, s', []) := by
  unfold get_user_role at h ⊢
  by_cases hc : truthy s.moodle_role
  · rw [if_pos hc] at h
    obtain ⟨h1, h2, h3⟩ : s.moodle_role.getD "" = r ∧ s = s' ∧ ([] : List String) = gets := by
      simpa using h
    subst h2
    rw [if_pos hc, h1]
  · rw [if_neg hc] at h
    unfold fetchRole at h
    by_cases he : httpErrB (env (u ++ "/my/")).status
    · rw [if_pos he] at h
      simp at h
    · rw [if_neg he] at h
      by_cases hm : strContains (env (u ++ "/my/")).text adminMarker
      · rw [if_pos hm] at h
        obtain ⟨h1, h2, h3⟩ :
            "admin" = r ∧ { s with moodle_role := some "admin" } = s' ∧ _ = gets := by
          simpa using h
        subst h1
        rw [← h2]
        simp [truthy]
      · rw [if_neg hm] at h
        by_cases h200 : (env (u ++ "/course/management.php")).status == 200
        · simp only [h200, if_true] at h
          obtain ⟨h1, h2, h3⟩ :
              "manager" = r ∧ { s with moodle_role := some "manager" } = s' ∧ _ = gets := by
            simpa using h
          subst h1
          rw [← h2]
          simp [truthy]
        · simp only [h200, if_false] at h
          obtain ⟨h1, h2, h3⟩ :
              "user" = r ∧ { s with moodle_role := some "user" } = s' ∧ _ = gets := by
            simpa using h
          subst h1
          rw [← h2]
          simp [truthy]

/-- An environment whose dashboard answers 200 without the admin marker
and whose other pages answer 404: a plain `user`. -/
def envUser : Env := fun u =>
  if u == "http://m/my/" then ⟨200, "welcome"⟩ else ⟨404, ""⟩

/-- Witness for C3 at a concrete uncached session and environment. -/
theorem get_user_role_memoized_witness :
    get_user_role envUser ⟨0, none⟩ "http://m"
      = Except.ok ("user", ⟨0, some "user"⟩, ["http://m/my/", "http://m/course/management.php"]) ∧
    get_user_role (fun _ => ⟨200, "x"⟩) ⟨0, some "user"⟩ "http://other"
      = Except.ok ("user", ⟨0, some "user"⟩, []) :=
  ⟨rfl, get_user_role_memoized envUser (fun _ => ⟨200, "x"⟩)
    ⟨0, none⟩ ⟨0, some "user"⟩ "http://m" "http://other" "user"
    ["http://m/my/", "http://m/course/management.php"] rfl⟩

/-- C1: when the wrapper locates a session and a base URL and the role
lookup returns a role, a caller whose hierarchy rank is strictly below
the required rank gets the insufficient-permission `RoleError` (whatever
the wrapped function is, so it is never invoked), and a caller of rank
at least the required rank gets the wrapped function's result on the
original arguments, unchanged. -/
theorem requires_role_gate {α : Type} (required : String)
    (func : List PyVal → Kwargs → α) (env : Env) (args : List PyVal)
    (kw : Kwargs) (s : Session) (b : PyVal) (role : String) (s' : Session)
    (gets : List String) (cr rr : Nat)
    (hloc : locate args kw = (some s, some b))
    (hrole : get_user_role env s (pyStr b) = Except.ok (role, s', gets))
    (hcr : ROLE_HIERARCHY.lookup role = some cr)
    (hrr : ROLE_HIERARCHY.lookup required = some rr) :
    (cr < rr →
      wrapper required func env args kw = CallResult.roleError (permErrorMsg required role)) ∧
    (rr ≤ cr →
      wrapper required func env args kw = CallResult.ok (func args kw)) := by
  unfold wrapper
  rw [hloc]
  simp only [hrole, hcr, hrr]
  constructor
  · intro hlt
    rw [if_pos hlt]
  · intro hle
    rw [if_neg (Nat.not_lt.mpr hle)]

/-- Witness for C1: a cached-admin session passed by keyword, checked
against required role `manager`; rank 2 is not below rank 1, so the
call passes through. -/
theorem requires_role_gate_witness :
    locate [] ⟨some ⟨0, some "admin"⟩, some (.vstr "http://m")⟩
      = (some ⟨0, some "admin"⟩, some (.vstr "http://m")) ∧
    get_user_role envUser ⟨0, some "admin"⟩ (pyStr (.vstr "http://m"))
      = Except.ok ("admin", ⟨0, some "admin"⟩, []) ∧
    ROLE_HIERARCHY.lookup "admin" = some 2 ∧
    ROLE_HIERARCHY.lookup "manager" = some 1 ∧
    ((2 < 1 →
      wrapper "manager" (fun _ _ => (42 : Nat)) envUser []
          ⟨some ⟨0, some "admin"⟩, some (.vstr "http://m")⟩
        = CallResult.roleError (permErrorMsg "manager" "admin")) ∧
     (1 ≤ 2 →
      wrapper "manager" (fun _ _ => (42 : Nat)) envUser []
          ⟨some ⟨0, some "admin"⟩, some (.vstr "http://m")⟩
        = CallResult.ok 42)) :=
  ⟨rfl, rfl, rfl, rfl,
    requires_role_gate "manager" (fun _ _ => (42 : Nat)) envUser []
      ⟨some ⟨0, some "admin"⟩, some (.vstr "http://m")⟩
      ⟨0, some "admin"⟩ (.vstr "http://m") "admin" ⟨0, some "admin"⟩ [] 2 1
      rfl rfl rfl rfl⟩

/-- C5: when the wrapper cannot locate a session or a base URL, the call
fails with the configuration `RoleError` for every wrapped function and
every environment — so no role lookup happens and the wrapped function
is never invoked — and that configuration message differs from every
insufficient-permission message. -/
theorem requires_role_config_error {α : Type} (required : String)
    (args : List PyVal) (kw : Kwargs)
    (h : (locate args kw).1 = none ∨ (locate args kw).2 = none) :
    (∀ (func : List PyVal → Kwargs → α) (env : Env),
      wrapper required func env args kw = CallResult.roleError configErrorMsg) ∧
    (∀ req cur, configErrorMsg ≠ permErrorMsg req cur) := by
  constructor
  · intro func env
    unfold wrapper
    rcases hp : locate args kw with ⟨os, ob⟩
    rw [hp] at h
    rcases os with _ | s
    · rfl
    · rcases ob with _ | b
      · rfl
      · simp at h
  · intro req cur hcontra
    have h2 := congrArg (fun t => t.data.head?) hcontra
    simp only [configErrorMsg, permErrorMsg, String.data_append] at h2
    simp at h2

/-- Witness for C5: a call with no arguments at all locates neither a
session nor a base URL and raises the configuration error. -/
theorem requires_role_config_error_witness :
    ((locate [] {}).1 = none ∨ (locate [] {}).2 = none) ∧
    (∀ (func : List PyVal → Kwargs → Nat) (env : Env),
      wrapper "manager" func env [] {} = CallResult.roleError configErrorMsg) ∧
    (∀ req cur, configErrorMsg ≠ permErrorMsg req cur) :=
  ⟨Or.inl rfl,
   (requires_role_config_error (α := Nat) "manager" [] {} (Or.inl rfl)).1,
   (requires_role_config_error (α := Nat) "manager" [] {} (Or.inl rfl)).2⟩

/-- C9: when the session arrives as a keyword argument and is not among
the positional arguments, the wrapper's positional base-URL scan — which
looks for the session in the positional list and takes the argument
after it — finds nothing, so the call raises the configuration
`RoleError` even though a base-URL string is present positionally. -/
theorem requires_role_kw_session_positional_url {α : Type} (s : Session)
    (args : List PyVal) (kw : Kwargs)
    (hks : kw.session = some s) (hkb : kw.base_url = none)
    (hidx : indexOfSess args s = none)
    (hurl : ∃ u, PyVal.vstr u ∈ args) :
    ∀ (required : String) (func : List PyVal → Kwargs → α) (env : Env),
      wrapper required func env args kw = CallResult.roleError configErrorMsg := by
  intro required func env
  have hloc : locate args kw = (some s, none) := by
    simp [locate, hks, hkb, hidx]
  unfold wrapper
  rw [hloc]

/-- Witness for C9: `f("http://m", session=sess)` — a session by
keyword, the base URL positional — still raises the configuration
error. -/
theorem requires_role_kw_session_positional_url_witness :
    (⟨some ⟨0, none⟩, none⟩ : Kwargs).session = some ⟨0, none⟩ ∧
    (⟨some ⟨0, none⟩, none⟩ : Kwargs).base_url = none ∧
    indexOfSess [.vstr "http://m"] ⟨0, none⟩ = none ∧
    (∃ u, PyVal.vstr u ∈ [PyVal.vstr "http://m"]) ∧
    wrapper "manager" (fun _ _ => (0 : Nat)) envUser [.vstr "http://m"]
        ⟨some ⟨0, none⟩, none⟩
      = CallResult.roleError configErrorMsg :=
  ⟨rfl, rfl, rfl, ⟨"http://m", by simp⟩,
   requires_role_kw_session_positional_url ⟨0, none⟩ [.vstr "http://m"]
     ⟨some ⟨0, none⟩, none⟩ rfl rfl rfl ⟨"http://m", by simp⟩
     "manager" (fun _ _ => (0 : Nat)) envUser⟩

/-- C6: for a wrapped function declared as `def f(session, base_url)`,
calling it with the session and base URL as keyword arguments behaves
identically to calling it with the same two values positionally: the
wrapper locates the same pair, performs the same role check, and the
call produces the same result or the same error. -/
theorem requires_role_kw_positional_same {α : Type} (f : PyVal → PyVal → α)
    (required : String) (env : Env) (s : Session) (u : String) :
    wrapper required (bind2 f) env [.vsess s, .vstr u] {} =
    wrapper required (bind2 f) env [] ⟨some s, some (.vstr u)⟩ := by
  have hloc1 : locate [.vsess s, .vstr u] {} = (some s, some (.vstr u)) := by
    simp [locate, findSessionArg, indexOfSess]
  have hloc2 : locate [] ⟨some s, some (.vstr u)⟩ = (some s, some (.vstr u)) := by
    simp [locate]
  unfold wrapper
  rw [hloc1, hloc2]
  cases hg : get_user_role env s (pyStr (.vstr u)) with
  | error e => simp [hg]
  | ok v =>
    rcases v with ⟨role, s', gets⟩
    cases hcr : ROLE_HIERARCHY.lookup role with
    | none => simp [hg, hcr]
    | some cr =>
      cases hrr : ROLE_HIERARCHY.lookup required with
      | none => simp [hg, hcr, hrr]
      | some rr =>
        by_cases hlt : cr < rr
        · simp [hg, hcr, hrr, hlt]
        · simp [hg, hcr, hrr, hlt, bind2]

/-- An environment whose dashboard page carries the admin marker. -/
def envCex : Env := fun u =>
  if u == "http://m/my/" then ⟨200, adminMarker⟩ else ⟨404, ""⟩

/-- A session object that already carries a cached `user` role. -/
def sessCex : Session := ⟨7, some "user"⟩

/-- C4 counterexample: on a session with a cached role, the dashboard
body contains the admin marker and yet `get_user_role` returns `"user"`
(the cache, with no GET issued), not `"admin"` as the claim's
determination rule requires. -/
theorem get_user_role_cached_beats_marker :
    strContains (envCex ("http://m" ++ "/my/")).text adminMarker = true ∧
    get_user_role envCex sessCex "http://m" = Except.ok ("user", sessCex, []) ∧
    ("user" : String) ≠ "admin" :=
  ⟨rfl, rfl, by decide⟩

/-- C4 amended: for a session without a (truthy) cached role and a
dashboard GET that does not raise, `get_user_role` follows the claimed
determination — admin marker on the dashboard gives `admin` after one
GET, otherwise HTTP 200 on the course-management page gives `manager`
and anything else gives `user`, each after two GETs — and every
successful result issues at most two GETs and is one of the three
hierarchy levels. -/
theorem get_user_role_probe (env : Env) (s : Session) (u : String)
    (h1 : truthy s.moodle_role = false)
    (h2 : httpErrB (env (u ++ "/my/")).status = false) :
    (strContains (env (u ++ "/my/")).text adminMarker = true →
      get_user_role env s u
        = Except.ok ("admin", { s with moodle_role := some "admin" }, [u ++ "/my/"])) ∧
    (strContains (env (u ++ "/my/")).text adminMarker = false →
      (env (u ++ "/course/management.php")).status = 200 →
      get_user_role env s u
        = Except.ok ("manager", { s with moodle_role := some "manager" },
            [u ++ "/my/", u ++ "/course/management.php"])) ∧
    (strContains (env (u ++ "/my/")).text adminMarker = false →
      (env (u ++ "/course/management.php")).status ≠ 200 →
      get_user_role env s u
        = Except.ok ("user", { s with moodle_role := some "user" },
            [u ++ "/my/", u ++ "/course/management.php"])) ∧
    (∀ r s' g, get_user_role env s u = Except.ok (r, s', g) →
      g.length ≤ 2 ∧ (r = "user" ∨ r = "manager" ∨ r = "admin")) := by
  have hbase : get_user_role env s u = fetchRole env s u := by
    unfold get_user_role
    rw [if_neg (by simp [h1])]
  refine ⟨?_, ?_, ?_, ?_⟩
  · intro hm
    rw [hbase]
    unfold fetchRole
    rw [if_neg (by simp [h2]), if_pos hm]
  · intro hm h200
    rw [hbase]
    unfold fetchRole
    rw [if_neg (by simp [h2]), if_neg (by simp [hm])]
    simp [h200]
  · intro hm h200
    rw [hbase]
    unfold fetchRole
    rw [if_neg (by simp [h2]), if_neg (by simp [hm])]
    simp only [beq_iff_eq, if_neg h200]
  · intro r s' g hok
    rw [hbase] at hok
    unfold fetchRole at hok
    rw [if_neg (by simp [h2])] at hok
    by_cases hm : strContains (env (u ++ "/my/")).text adminMarker
    · rw [if_pos hm] at hok
      obtain ⟨hr, _, hg⟩ : "admin" = r ∧ _ ∧ [u ++ "/my/"] = g := by simpa using hok
      subst hr
      subst hg
      exact ⟨by simp, by simp⟩
    · rw [if_neg hm] at hok
      by_cases h200 : (env (u ++ "/course/management.php")).status == 200
      · simp only [h200, if_true] at hok
        obtain ⟨hr, _, hg⟩ : "manager" = r ∧ _ ∧ _ = g := by simpa using hok
        subst hr
        subst hg
        exact ⟨by simp, by simp⟩
      · simp only [h200, if_false] at hok
        obtain ⟨hr, _, hg⟩ : "user" = r ∧ _ ∧ _ = g := by simpa using hok
        subst hr
        subst hg
        exact ⟨by simp, by simp⟩

/-- Witness for the amended C4: an uncached session against the
marker-bearing environment comes back `admin` after one GET. -/
theorem get_user_role_probe_witness :
    truthy (⟨1, none⟩ : Session).moodle_role = false ∧
    httpErrB (envCex ("http://m" ++ "/my/")).status = false ∧
    get_user_role envCex ⟨1, none⟩ "http://m"
      = Except.ok ("admin", ⟨1, some "admin"⟩, ["http://m" ++ "/my/"]) :=
  ⟨rfl, rfl, (get_user_role_probe envCex ⟨1, none⟩ "http://m" rfl rfl).1 rfl⟩

/-- Helper: an option known to be `isSome` equals `some` of its `getD`. -/
theorem opt_eq_some_getD {α : Type} (o : Option α) (d : α) (h : o.isSome = true) :
    o = some (o.getD d) := by
  cases o with
  | none => simp at h
  | some v => rfl

/-- Helper: a successful elementwise conversion converted every element. -/
theorem convList_mem_isSome {α : Type} (g : JObj → Option α) :
    ∀ (l : List JObj) (res : List α), convList g l = some res →
      ∀ m ∈ l, (g m).isSome = true := by
  intro l
  induction l with
  | nil =>
    intro res h m hm
    simp at hm
  | cons a t ih =>
    intro res h m hm
    unfold convList at h
    cases hg : g a with
    | none =>
      rw [hg] at h
      simp at h
    | some v =>
      rw [hg] at h
      cases hc : convList g t with
      | none =>
        rw [hc] at h
        simp at h
      | some lt =>
        rcases List.mem_cons.mp hm with h1 | h2
        · subst h1
          simp [hg]
        · exact ih lt hc m h2

/-- Helper: a `SiteFunction(**m)` with an undeclared key raises. -/
theorem mkSiteFunction_none {m : JObj} {kv : String × JVal} (hmem : kv ∈ m)
    (h1 : kv.1 ≠ "name") (h2 : kv.1 ≠ "version") : mkSiteFunction m = none := by
  unfold mkSiteFunction
  rw [if_neg]
  intro hcontra
  simp only [Bool.and_eq_true] at hcontra
  have hx := List.all_eq_true.mp hcontra.2 kv hmem
  simp [h1, h2] at hx

/-- Helper: an `AdvancedFeature(**m)` with an undeclared key raises. -/
theorem mkAdvancedFeature_none {m : JObj} {kv : String × JVal} (hmem : kv ∈ m)
    (h1 : kv.1 ≠ "name") (h2 : kv.1 ≠ "value") : mkAdvancedFeature m = none := by
  unfold mkAdvancedFeature
  rw [if_neg]
  intro hcontra
  simp only [Bool.and_eq_true] at hcontra
  have hx := List.all_eq_true.mp hcontra.2 kv hmem
  simp [h1, h2] at hx

/-- Inversion of a successful `processResp`: the response held array
values under `functions` and `advancedfeatures`, both converted
elementwise into the record's two list fields, every declared field was
present, every response key was declared, and each scalar field carries
the response's value for its name. -/
theorem processResp_some {resp : JObj} {si : SiteInfo}
    (h : processResp resp = some si) :
    ∃ fl al,
      List.lookup "functions" resp = some (JVal.arr fl) ∧
      List.lookup "advancedfeatures" resp = some (JVal.arr al) ∧
      convList mkSiteFunction fl = some si.functions ∧
      convList mkAdvancedFeature al = some si.advancedfeatures ∧
      siteInfoFields.all (fun p => (List.lookup p resp).isSome) = true ∧
      resp.all (fun kv => siteInfoFields.contains kv.1) = true ∧
      (∀ f ∈ scalarFields, si.scalar f = List.lookup f resp) := by
  unfold processResp at h
  simp only [Option.bind_eq_some] at h
  obtain ⟨fv, hfun, fl, hfl, funcs, hcf, av, hadv, al, hal, feats, hca, hmk⟩ := h
  have hfv : fv = JVal.arr fl := by
    cases fv <;> simp [asArr] at hfl
    rw [hfl]
  have hav : av = JVal.arr al := by
    cases av <;> simp [asArr] at hal
    rw [hal]
  subst hfv
  subst hav
  unfold mkSiteInfo at hmk
  by_cases hg : (siteInfoFields.all (fun p => (List.lookup p resp).isSome)
      && resp.all (fun kv => siteInfoFields.contains kv.1)) = true
  · rw [if_pos hg] at hmk
    have hsi := Option.some.inj hmk
    subst hsi
    simp only [Bool.and_eq_true] at hg
    refine ⟨fl, al, hfun, hadv, hcf, hca, hg.1, hg.2, ?_⟩
    intro f hf
    have hsub : ∀ x ∈ scalarFields, x ∈ siteInfoFields := by decide
    have hsome : (List.lookup f resp).isSome = true :=
      List.all_eq_true.mp hg.1 f (hsub f hf)
    obtain ⟨v, hv⟩ := Option.isSome_iff_exists.mp hsome
    fin_cases hf <;> simp [SiteInfo.scalar, fieldOf, hv]
  · rw [if_neg hg] at hmk
    simp at hmk

/-- C2: if any declared `SiteInfo` field name is absent from the
response mapping, `get_site_info` fails — the strict record construction
raises instead of returning a partial record. -/
theorem get_site_info_strict_missing (s : MoodleSession) (resp : JObj)
    (rest : List JObj) (hs : s.responses = resp :: rest) (f : String)
    (hf : f ∈ siteInfoFields) (hmiss : List.lookup f resp = none) :
    get_site_info s = none := by
  have hnone : processResp resp = none := by
    cases hp : processResp resp with
    | none => rfl
    | some si =>
      exfalso
      obtain ⟨fl, al, hfun, hadv, hcf, hca, hall, hkeys, hscal⟩ := processResp_some hp
      have hx := List.all_eq_true.mp hall f hf
      rw [hmiss] at hx
      simp at hx
  unfold get_site_info
  rw [hs]
  simp [hnone]

/-- Witness for C2: a response missing every field (the empty mapping)
makes `get_site_info` fail. -/
theorem get_site_info_strict_missing_witness :
    (⟨[[]]⟩ : MoodleSession).responses = [] :: [] ∧
    "sitename" ∈ siteInfoFields ∧
    List.lookup "sitename" ([] : JObj) = none ∧
    get_site_info ⟨[[]]⟩ = none :=
  ⟨rfl, by decide, rfl,
   get_site_info_strict_missing ⟨[[]]⟩ [] [] rfl "sitename" (by decide) rfl⟩

/-- C7: a successful `get_site_info` consumed exactly one response from
the session (one API call), its `functions` field is the elementwise,
order-preserving conversion of the response's `functions` array, its
`advancedfeatures` field likewise, and every scalar field carries the
response's value for that name unchanged. -/
theorem get_site_info_shape (s : MoodleSession) (si : SiteInfo)
    (s2 : MoodleSession) (h : get_site_info s = some (si, s2)) :
    ∃ resp rest, s.responses = resp :: rest ∧ s2 = ⟨rest⟩ ∧
      (∃ fl, List.lookup "functions" resp = some (JVal.arr fl) ∧
        convList mkSiteFunction fl = some si.functions) ∧
      (∃ al, List.lookup "advancedfeatures" resp = some (JVal.arr al) ∧
        convList mkAdvancedFeature al = some si.advancedfeatures) ∧
      (∀ f ∈ scalarFields, si.scalar f = List.lookup f resp) := by
  cases hs : s.responses with
  | nil =>
    unfold get_site_info at h
    rw [hs] at h
    simp at h
  | cons resp rest =>
    unfold get_site_info at h
    rw [hs] at h
    simp only [] at h
    cases hp : processResp resp with
    | none =>
      rw [hp] at h
      simp at h
    | some si' =>
      rw [hp] at h
      simp only [Option.some.injEq, Prod.mk.injEq] at h
      obtain ⟨hsi, hs2⟩ := h
      subst hsi
      subst hs2
      obtain ⟨fl, al, hfun, hadv, hcf, hca, hall, hkeys, hscal⟩ := processResp_some hp
      exact ⟨resp, rest, rfl, rfl, ⟨fl, hfun, hcf⟩, ⟨al, hadv, hca⟩, hscal⟩

/-- C10: `get_site_info` is strict against undeclared keys as well: an
extra key on the response mapping, or on any element of the `functions`
or `advancedfeatures` arrays, makes it fail rather than being ignored. -/
theorem get_site_info_strict_extra (s : MoodleSession) (resp : JObj)
    (rest : List JObj) (hs : s.responses = resp :: rest)
    (h : (∃ kv ∈ resp, kv.1 ∉ siteInfoFields) ∨
         (∃ fl, List.lookup "functions" resp = some (JVal.arr fl) ∧
            ∃ m ∈ fl, ∃ kv ∈ m, kv.1 ≠ "name" ∧ kv.1 ≠ "version") ∨
         (∃ al, List.lookup "advancedfeatures" resp = some (JVal.arr al) ∧
            ∃ m ∈ al, ∃ kv ∈ m, kv.1 ≠ "name" ∧ kv.1 ≠ "value")) :
    get_site_info s = none := by
  have hnone : processResp resp = none := by
    cases hp : processResp resp with
    | none => rfl
    | some si =>
      exfalso
      obtain ⟨fl0, al0, hfun, hadv, hcf, hca, hall, hkeys, hscal⟩ := processResp_some hp
      rcases h with ⟨kv, hkv, hnotin⟩ | ⟨fl, hfl, m, hm, kv, hkvm, hn1, hn2⟩ |
        ⟨al, hal2, m, hm, kv, hkvm, hn1, hn2⟩
      · have hx := List.all_eq_true.mp hkeys kv hkv
        simp at hx
        exact hnotin hx
      · rw [hfun] at hfl
        have hfl2 : fl0 = fl := by simpa using hfl
        subst hfl2
        have hsome := convList_mem_isSome mkSiteFunction fl0 si.functions hcf m hm
        rw [mkSiteFunction_none hkvm hn1 hn2] at hsome
        simp at hsome
      · rw [hadv] at hal2
        have hal3 : al0 = al := by simpa using hal2
        subst hal3
        have hsome := convList_mem_isSome mkAdvancedFeature al0 si.advancedfeatures hca m hm
        rw [mkAdvancedFeature_none hkvm hn1 hn2] at hsome
        simp at hsome
  unfold get_site_info
  rw [hs]
  simp [hnone]

/-- A concrete well-formed element of the `functions` array. -/
def fn0 : JObj := [("name", JVal.s "core_course_get_contents"), ("version", JVal.s "1")]

/-- A concrete well-formed element of the `advancedfeatures` array. -/
def af0 : JObj := [("name", JVal.s "usecomments"), ("value", JVal.i 0)]

/-- A concrete complete site-info response mapping. -/
def resp0 : JObj :=
  [("sitename", JVal.s "Moodle"), ("username", JVal.s "admin"),
   ("firstname", JVal.s "Ad"), ("lastname", JVal.s "Min"),
   ("fullname", JVal.s "Ad Min"), ("lang", JVal.s "en"),
   ("userid", JVal.i 2), ("siteurl", JVal.s "http://m"),
   ("userpictureurl", JVal.s "http://m/u.png"),
   ("functions", JVal.arr [fn0]),
   ("downloadfiles", JVal.i 1), ("uploadfiles", JVal.i 1),
   ("release", JVal.s "4.5"), ("version", JVal.s "2024100700"),
   ("mobilecssurl", JVal.s ""),
   ("advancedfeatures", JVal.arr [af0]),
   ("usercanmanageownfiles", JVal.b true), ("userquota", JVal.i 0),
   ("usermaxuploadfilesize", JVal.i 100), ("userhomepage", JVal.i 0),
   ("userprivateaccesskey", JVal.s "k"), ("siteid", JVal.i 1),
   ("sitecalendartype", JVal.s "gregorian"),
   ("usercalendartype", JVal.s "gregorian"),
   ("userissiteadmin", JVal.b true), ("theme", JVal.s "boost"),
   ("limitconcurrentlogins", JVal.i 0), ("policyagreed", JVal.i 0)]

/-- The `SiteInfo` record that `resp0` reshapes into. -/
def si0 : SiteInfo :=
  { sitename := JVal.s "Moodle", username := JVal.s "admin",
    firstname := JVal.s "Ad", lastname := JVal.s "Min",
    fullname := JVal.s "Ad Min", lang := JVal.s "en",
    userid := JVal.i 2, siteurl := JVal.s "http://m",
    userpictureurl := JVal.s "http://m/u.png",
    functions := [⟨JVal.s "core_course_get_contents", JVal.s "1"⟩],
    downloadfiles := JVal.i 1, uploadfiles := JVal.i 1,
    release := JVal.s "4.5", version := JVal.s "2024100700",
    mobilecssurl := JVal.s "",
    advancedfeatures := [⟨JVal.s "usecomments", JVal.i 0⟩],
    usercanmanageownfiles := JVal.b true, userquota := JVal.i 0,
    usermaxuploadfilesize := JVal.i 100, userhomepage := JVal.i 0,
    userprivateaccesskey := JVal.s "k", siteid := JVal.i 1,
    sitecalendartype := JVal.s "gregorian",
    usercalendartype := JVal.s "gregorian",
    userissiteadmin := JVal.b true, theme := JVal.s "boost",
    limitconcurrentlogins := JVal.i 0, policyagreed := JVal.i 0 }

/-- Witness for C7 on the concrete complete response. -/
theorem get_site_info_shape_witness :
    get_site_info ⟨[resp0]⟩ = some (si0, ⟨[]⟩) ∧
    (∃ resp rest, (⟨[resp0]⟩ : MoodleSession).responses = resp :: rest ∧
      (⟨[]⟩ : MoodleSession) = ⟨rest⟩ ∧
      (∃ fl, List.lookup "functions" resp = some (JVal.arr fl) ∧
        convList mkSiteFunction fl = some si0.functions) ∧
      (∃ al, List.lookup "advancedfeatures" resp = some (JVal.arr al) ∧
        convList mkAdvancedFeature al = some si0.advancedfeatures) ∧
      (∀ f ∈ scalarFields, si0.scalar f = List.lookup f resp)) :=
  ⟨rfl, get_site_info_shape ⟨[resp0]⟩ si0 ⟨[]⟩ rfl⟩

/-- A complete response carrying one extra, undeclared key. -/
def respX : JObj := ("mobileapp", JVal.i 1) :: resp0

/-- Witness for C10: the extra `mobileapp` key makes `get_site_info`
fail. -/
theorem get_site_info_strict_extra_witness :
    (⟨[respX]⟩ : MoodleSession).responses = respX :: [] ∧
    (("mobileapp", JVal.i 1) ∈ respX ∧ "mobileapp" ∉ siteInfoFields) ∧
    get_site_info ⟨[respX]⟩ = none :=
  ⟨rfl, ⟨List.mem_cons_self _ _, by decide⟩,
   get_site_info_strict_extra ⟨[respX]⟩ respX [] rfl
     (Or.inl ⟨("mobileapp", JVal.i 1), List.mem_cons_self _ _, by decide⟩)⟩
